import Mathlib

/-!
Verification of the FantasyBlock draft engine and recommendation engine.

The definitions below are a shallow embedding of:
* the pick API handlers in src/app/api/drafts/[id]/route.ts
  (POST = make a pick, DELETE = undo the last pick),
* the snake draft board construction in the draft room page,
* the roster analyzer and recommendation engine in the AI
  recommendations module (analyzeRoster, buildRecommendationPrompt,
  parseAIResponse, generateRecommendations, getFallbackRecommendations),
* the index declarations of the draft_picks table in src/lib/db/schema.ts.

Authentication, request routing, UUID validation and draft ownership are
external collaborators; the embedding starts from the point where the
draft row has been fetched.  Database rows are lists, and each handler is
a pure function from a database state and a request body to either an
error (the handler returns early, before any mutation) or the new state.
-/

/-- Draft status enum (`draft_status` in src/lib/db/schema.ts). -/
inductive DraftStatus
  | setup
  | inProgress
  | completed
  | abandoned
deriving DecidableEq, Repr

/-- Draft type enum (`draft_type` in src/lib/db/schema.ts). -/
inductive DraftType
  | snake
  | auction
  | linear
deriving DecidableEq, Repr

/-- The columns of the drafts table that the pick handlers read or write.
Player and draft ids are modelled as numbers; nothing depends on their
format. -/
structure Draft where
  draftType : DraftType
  numTeams : Nat
  draftPosition : Nat
  rosterSize : Nat
  currentRound : Nat
  currentPick : Nat
  status : DraftStatus
deriving DecidableEq, Repr

/-- A row of the draft_picks table (the draft id is implicit: a state
holds the rows of one draft). -/
structure DraftPick where
  playerId : Nat
  teamNumber : Nat
  round : Nat
  pickNumber : Nat
  pickInRound : Nat
  isUserPick : Bool
deriving DecidableEq, Repr

/-- The request body of POST (make a pick), after JSON parsing. -/
structure PickSubmission where
  playerId : Nat
  teamNumber : Nat
  round : Nat
  pickNumber : Nat
  pickInRound : Nat
  isUserPick : Bool
deriving DecidableEq, Repr

/-- The zod schema makePickSchema: teamNumber is an integer in 1..20,
round, pickNumber and pickInRound are integers that are at least 1.
(The playerId uuid-format check is not modelled.) -/
def validSubmission (b : PickSubmission) : Bool :=
  1 ≤ b.teamNumber && b.teamNumber ≤ 20 &&
    1 ≤ b.round && 1 ≤ b.pickNumber && 1 ≤ b.pickInRound

/-- The database state seen by the handlers of one draft: the draft row,
the ids present in the players table, and the draft_picks rows of this
draft in insertion order. -/
structure DbState where
  draft : Draft
  players : List Nat
  picks : List DraftPick
deriving DecidableEq, Repr

/-- The error responses of the POST handler that concern the pick
itself (401/404-for-draft responses are upstream of the embedding). -/
inductive PickError
  | draftCompleted
  | invalidRequest
  | playerNotFound
  | alreadyDrafted
deriving DecidableEq, Repr

/-- The draft_picks row inserted by the POST handler: every column is
taken from the request body as submitted. -/
def insertedPick (b : PickSubmission) : DraftPick :=
  { playerId := b.playerId
    teamNumber := b.teamNumber
    round := b.round
    pickNumber := b.pickNumber
    pickInRound := b.pickInRound
    isUserPick := b.isUserPick }

/-- The read phase of the POST handler, in source order: the
draft-completed check, the body validation, the player lookup, and the
already-drafted lookup.  Returns the error response it would send, or
none when every check passes. -/
def makePickCheck (s : DbState) (b : PickSubmission) : Option PickError :=
  if s.draft.status = DraftStatus.completed then some PickError.draftCompleted
  else if !validSubmission b then some PickError.invalidRequest
  else if !s.players.contains b.playerId then some PickError.playerNotFound
  else if s.picks.any (fun p => p.playerId == b.playerId) then
    some PickError.alreadyDrafted
  else none

/-- The write phase of the POST handler: insert the row, then set
status to in_progress, currentRound to the submitted round and
currentPick to the submitted pickNumber + 1; finally, if the submitted
pickNumber reaches numTeams * rosterSize, set status to completed. -/
def makePickWrite (s : DbState) (b : PickSubmission) : DbState :=
  let picks1 := s.picks ++ [insertedPick b]
  let d1 := { s.draft with
    status := DraftStatus.inProgress
    currentRound := b.round
    currentPick := b.pickNumber + 1 }
  let totalPicks := s.draft.numTeams * s.draft.rosterSize
  let d2 := if totalPicks ≤ b.pickNumber then
    { d1 with status := DraftStatus.completed } else d1
  { s with draft := d2, picks := picks1 }

/-- The POST handler (make a pick): run the checks, then the writes. -/
def makePick (s : DbState) (b : PickSubmission) : Except PickError DbState :=
  match makePickCheck s b with
  | some e => Except.error e
  | none => Except.ok (makePickWrite s b)

/-- The error responses of the DELETE handler (undo the last pick). -/
inductive UndoError
  | noPicksToUndo
  | forbiddenUndo
deriving DecidableEq, Repr

/-- The row selected by ORDER BY pick_number DESC LIMIT 1, together
with its position in the list (which stands for its row id, so that
deletion removes exactly this row). -/
def lastPickEntry : List DraftPick → Option (Nat × DraftPick)
  | [] => none
  | p :: ps =>
    match lastPickEntry ps with
    | none => some (0, p)
    | some (i, q) =>
      if p.pickNumber < q.pickNumber then some (i + 1, q) else some (0, p)

/-- The DELETE handler (undo the last pick): fetch the pick with the
highest pickNumber; with no picks answer NoPicksToUndo; if that pick
does not have isUserPick answer ForbiddenUndo; otherwise delete the row
and set status to setup when its pickNumber is 1 (else in_progress),
currentRound to its round and currentPick to its pickNumber.  Both error
answers are sent before any mutation. -/
def undoLastPick (s : DbState) : Except UndoError DbState :=
  match lastPickEntry s.picks with
  | none => Except.error UndoError.noPicksToUndo
  | some (i, q) =>
    if !q.isUserPick then Except.error UndoError.forbiddenUndo
    else
      Except.ok { s with
        picks := s.picks.eraseIdx i
        draft := { s.draft with
          status := if q.pickNumber = 1 then DraftStatus.setup
            else DraftStatus.inProgress
          currentRound := q.round
          currentPick := q.pickNumber } }

/-- MakePick immediately followed by UndoLastPick (the round-trip the
spec describes), with errors collapsed to none. -/
def undoAfterPick (s : DbState) (b : PickSubmission) : Option DbState :=
  match makePick s b with
  | Except.error _ => none
  | Except.ok s1 =>
    match undoLastPick s1 with
    | Except.error _ => none
    | Except.ok s2 => some s2

/-- Two concurrent POST requests for the same draft, scheduled so that
both run their read phase against the same snapshot before either write
runs.  The handler opens no transaction around its statements, so this
interleaving is possible; when either read phase fails the schedule is
not of interest and none is returned. -/
def interleavedMakePicks (s : DbState) (b1 b2 : PickSubmission) :
    Option DbState :=
  match makePickCheck s b1, makePickCheck s b2 with
  | none, none => some (makePickWrite (makePickWrite s b1) b2)
  | _, _ => none

/-- The snake-order team index of the draft room page: for the board
entry at a 1-based round and a 1-based pick-in-round, the 0-based team
index is pick − 1 in odd rounds and numTeams − pick in even rounds. -/
def snakeTeamIndex (numTeams round pick : Nat) : Nat :=
  if round % 2 = 1 then pick - 1 else numTeams - pick

/-- The 1-based seat number shown by the page (team index + 1). -/
def snakeTeamNumber (numTeams round pick : Nat) : Nat :=
  snakeTeamIndex numTeams round pick + 1

/-- The seat numbers visited in one round of the board, in pick order. -/
def roundSeats (numTeams round : Nat) : List Nat :=
  (List.range numTeams).map (fun q0 => snakeTeamNumber numTeams round (q0 + 1))

/-- Seats 1..n in ascending order. -/
def ascendingSeats (n : Nat) : List Nat :=
  (List.range n).map (fun i => i + 1)

/-- A player row as used by the recommendation engine: full name, team,
primary position and ADP, each nullable where the schema is nullable. -/
structure Player where
  id : Nat
  fullName : String
  team : Option String
  position : Option String
  adp : Option Int
deriving DecidableEq, Repr

/-- The ideal roster composition table: exactly the five positions PG,
SG, SF, PF and C, each with an ideal count of 2 (G, F and UTIL are flex
positions and have no entry). -/
def IDEAL_ROSTER_COMPOSITION : List (String × Nat) :=
  [("PG", 2), ("SG", 2), ("SF", 2), ("PF", 2), ("C", 2)]

/-- The value of `player.position || fallback` in JavaScript: null and
the empty string are falsy, so both yield the fallback. -/
def positionOr (fallback : String) (p : Player) : String :=
  match p.position with
  | none => fallback
  | some s => if s = "" then fallback else s

/-- The primary position a player is counted under (UTIL when the
position column is null or empty). -/
def primaryPosition (p : Player) : String :=
  positionOr "UTIL" p

/-- How many players of a roster have the given primary position (the
source builds a counts record in one pass and then reads one key; the
per-key count is the same). -/
def positionCount (roster : List Player) (pos : String) : Nat :=
  (roster.filter (fun p => primaryPosition p == pos)).length

/-- The strength entry pushed for a position: "POS (count)". -/
def strengthLabel (pos : String) (c : Nat) : String :=
  pos ++ " (" ++ toString c ++ ")"

/-- The need entry pushed for a position: "POS (have c, need ideal)". -/
def needLabel (pos : String) (c ideal : Nat) : String :=
  pos ++ " (have " ++ toString c ++ ", need " ++ toString ideal ++ ")"

/-- The result of analyzeRoster. -/
structure RosterAnalysis where
  strengths : List String
  needs : List String
deriving DecidableEq, Repr

/-- analyzeRoster: for every position of the ideal table, a count at or
above the ideal is a strength and a count strictly below ideal − 1 is a
need; if no needs were found the needs list is replaced by the single
sentinel "Roster is well-balanced". -/
def analyzeRoster (roster : List Player) : RosterAnalysis :=
  let strengths := IDEAL_ROSTER_COMPOSITION.filterMap (fun pi =>
    let c := positionCount roster pi.1
    if pi.2 ≤ c then some (strengthLabel pi.1 c) else none)
  let needs := IDEAL_ROSTER_COMPOSITION.filterMap (fun pi =>
    let c := positionCount roster pi.1
    if c < pi.2 - 1 then some (needLabel pi.1 c pi.2) else none)
  { strengths := strengths
    needs := if needs = [] then ["Roster is well-balanced"] else needs }

/-- One recommendation returned to the caller. -/
structure PlayerRecommendation where
  playerId : Nat
  playerName : String
  position : String
  team : Option String
  reasoning : String
  score : Int
  tags : List String
deriving DecidableEq, Repr

/-- The full result of the recommendation engine. -/
structure RecommendationsResult where
  recommendations : List PlayerRecommendation
  strategy : String
  rosterAnalysis : RosterAnalysis
deriving DecidableEq, Repr

/-- The sort key `p.adp || 999` applied to a player: null and 0 are
falsy in JavaScript, so both become 999. -/
def adpOr999 (p : Player) : Int :=
  match p.adp with
  | none => 999
  | some v => if v = 0 then 999 else v

/-- The recurring pool preparation
`players.filter(p => p.adp !== null).sort((a, b) => (a.adp || 999) - (b.adp || 999))`:
drop null-ADP players, then sort ascending by the key.  JavaScript's
sort is stable and the subtraction comparator orders ascending; a stable
ascending sort (insertion sort) models it. -/
def sortedByAdp (ps : List Player) : List Player :=
  List.insertionSort (fun a b => adpOr999 a ≤ adpOr999 b)
    (ps.filter (fun p => p.adp.isSome))

/-- The candidate list embedded into the prompt by
buildRecommendationPrompt: the prepared pool capped at 30. -/
def topAvailable (availablePlayers : List Player) : List Player :=
  (sortedByAdp availablePlayers).take 30

/-- One entry of the recommendations array of the provider's decoded
JSON answer.  score and tags go through `rec.score || 75` and
`rec.tags || []`, so a missing (or zero, resp. missing) value is
modelled as none. -/
structure RecItem where
  playerName : String
  position : String
  reasoning : String
  score : Option Int
  tags : Option (List String)
deriving DecidableEq, Repr

/-- The provider's decoded JSON answer. -/
structure ParsedResponse where
  recommendations : List RecItem
  strategy : Option String
  rosterNeeds : Option (List String)
deriving DecidableEq, Repr

/-- String containment as used by `a.includes(b)`. -/
def strIncludes (s t : String) : Bool :=
  decide (List.IsInfix t.data s.data)

/-- The name-resolution loop of parseAIResponse: each returned item is
matched (case-insensitively, by substring in either direction) against
the available pool; the first matching player wins and unmatched items
are dropped. -/
def resolveRecs (items : List RecItem) (availablePlayers : List Player) :
    List PlayerRecommendation :=
  items.filterMap (fun rec =>
    match availablePlayers.find? (fun p =>
      strIncludes (p.fullName.toLower) (rec.playerName.toLower) ||
        strIncludes (rec.playerName.toLower) (p.fullName.toLower)) with
    | none => none
    | some player => some
      { playerId := player.id
        playerName := player.fullName
        position := positionOr rec.position player
        team := player.team
        reasoning := rec.reasoning
        score := match rec.score with
          | none => 75
          | some v => if v = 0 then 75 else v
        tags := match rec.tags with
          | none => []
          | some ts => ts })

/-- The top-ADP replacement list built inside parseAIResponse when the
resolution loop produced nothing: the prepared pool capped at 5, every
entry with score 70 and the single tag "best available". -/
def zeroUsableRecs (availablePlayers : List Player) :
    List PlayerRecommendation :=
  ((sortedByAdp availablePlayers).take 5).map (fun player =>
    { playerId := player.id
      playerName := player.fullName
      position := primaryPosition player
      team := player.team
      reasoning := "Best available player by ADP"
      score := 70
      tags := ["best available"] })

/-- The value of `parsed.strategy || default`. -/
def strategyOrDefault (s : Option String) : String :=
  match s with
  | none => "Draft the best available player"
  | some v => if v = "" then "Draft the best available player" else v

/-- parseAIResponse on a successfully decoded answer: resolve the
items, replace an empty resolution by the zero-usable list, cap at 5;
strengths are left empty and needs come from the answer's rosterNeeds. -/
def parseAIResponseDecoded (parsed : ParsedResponse)
    (availablePlayers : List Player) : RecommendationsResult :=
  let recommendations := resolveRecs parsed.recommendations availablePlayers
  let recommendations :=
    if recommendations = [] then zeroUsableRecs availablePlayers
    else recommendations
  { recommendations := recommendations.take 5
    strategy := strategyOrDefault parsed.strategy
    rosterAnalysis :=
      { strengths := []
        needs := match parsed.rosterNeeds with
          | none => []
          | some ns => ns } }

/-- The catch branch of parseAIResponse (the answer did not decode):
the same top-ADP list with score 70, the default strategy and an empty
analysis. -/
def parseFailureResult (availablePlayers : List Player) :
    RecommendationsResult :=
  { recommendations := zeroUsableRecs availablePlayers
    strategy := "Draft the best available player"
    rosterAnalysis := { strengths := [], needs := [] } }

/-- getFallbackRecommendations: the prepared pool capped at 5, with the
first entry tagged "best available" and the rest "value pick", scores
80 − 5·index, and the roster analysis of the user's roster.  The
source's map callback receives (player, index); List.enum supplies the
same pairs. -/
def getFallbackRecommendations (availablePlayers userRoster : List Player)
    (currentPick : Nat) : RecommendationsResult :=
  let rosterAnalysis := analyzeRoster userRoster
  let sortedPlayers := sortedByAdp availablePlayers
  let recommendations := (sortedPlayers.take 5).enum.map (fun ip =>
    { playerId := ip.2.id
      playerName := ip.2.fullName
      position := primaryPosition ip.2
      team := ip.2.team
      reasoning := if ip.1 = 0 then "Best available player by ADP"
        else "Strong value at pick " ++ toString currentPick
      score := (80 : Int) - 5 * ip.1
      tags := if ip.1 = 0 then ["best available"] else ["value pick"] })
  { recommendations := recommendations
    strategy := "Draft the best available player based on ADP rankings"
    rosterAnalysis := rosterAnalysis }

/-- The outcome of the provider interaction in generateRecommendations:
no provider configured, the generateText call threw (failure or
timeout), or a text answer whose JSON decode either failed (none) or
produced a ParsedResponse. -/
inductive ProviderResult
  | unavailable
  | failure
  | response (decoded : Option ParsedResponse)
deriving DecidableEq, Repr

/-- generateRecommendations: with no provider configured fall back;
when the provider call throws fall back; otherwise parse the answer
(the decode-failed branch is the catch branch of parseAIResponse). -/
def generateRecommendations (pr : ProviderResult)
    (availablePlayers userRoster : List Player) (currentPick : Nat) :
    RecommendationsResult :=
  match pr with
  | ProviderResult.unavailable =>
    getFallbackRecommendations availablePlayers userRoster currentPick
  | ProviderResult.failure =>
    getFallbackRecommendations availablePlayers userRoster currentPick
  | ProviderResult.response none => parseFailureResult availablePlayers
  | ProviderResult.response (some parsed) =>
    parseAIResponseDecoded parsed availablePlayers

/-- An index declaration of the schema. -/
structure IndexDef where
  name : String
  columns : List String
  unique : Bool
deriving DecidableEq, Repr

/-- The secondary indexes declared on the draft_picks table, in
src/lib/db/schema.ts and in migration 003: three plain (non-unique)
indexes; the only unique column is the id primary key. -/
def draftPicksIndexes : List IndexDef :=
  [{ name := "idx_draft_picks_draft_id", columns := ["draft_id"],
     unique := false },
   { name := "idx_draft_picks_player_id", columns := ["player_id"],
     unique := false },
   { name := "idx_draft_picks_team_number", columns := ["team_number"],
     unique := false }]

/-- Claim C1 (counterexample): in a fresh 12-team snake draft the seat
for pick 1 is team 1, yet a submission with teamNumber 2 is accepted:
the handler returns 201, inserts the row and advances currentPick, so
the claimed OutOfTurn rejection does not happen. -/
theorem claim_C1_counterexample :
    (⟨7, 2, 1, 1, 1, false⟩ : PickSubmission).teamNumber ≠
        snakeTeamNumber 12 1 1
    ∧ makePick ⟨⟨DraftType.snake, 12, 6, 13, 1, 1, DraftStatus.setup⟩, [7], []⟩
        ⟨7, 2, 1, 1, 1, false⟩
      = Except.ok ⟨⟨DraftType.snake, 12, 6, 13, 1, 2, DraftStatus.inProgress⟩,
          [7], [⟨7, 2, 1, 1, 1, false⟩]⟩
    ∧ (⟨⟨DraftType.snake, 12, 6, 13, 1, 2, DraftStatus.inProgress⟩,
          [7], [⟨7, 2, 1, 1, 1, false⟩]⟩ : DbState).draft.currentPick ≠
        (⟨⟨DraftType.snake, 12, 6, 13, 1, 1, DraftStatus.setup⟩, [7],
          []⟩ : DbState).draft.currentPick
    ∧ (⟨⟨DraftType.snake, 12, 6, 13, 1, 2, DraftStatus.inProgress⟩,
          [7], [⟨7, 2, 1, 1, 1, false⟩]⟩ : DbState).picks ≠ [] :=
  ⟨by decide, rfl, by decide, by decide⟩

/-- Claim C1 (amended): the POST handler performs no turn-order check
at all.  A submission that passes the unrelated checks (draft not
completed, body valid, player exists and not yet drafted) succeeds even
when its teamNumber differs from the snake seat of the submitted pick;
the row is inserted and currentPick becomes pickNumber + 1.  Turn
enforcement exists only client-side in the draft room page. -/
theorem claim_C1_amended (s : DbState) (b : PickSubmission)
    (h1 : s.draft.status ≠ DraftStatus.completed)
    (h2 : validSubmission b = true)
    (h3 : b.playerId ∈ s.players)
    (h4 : ∀ p ∈ s.picks, p.playerId ≠ b.playerId)
    (h5 : b.teamNumber ≠
      snakeTeamNumber s.draft.numTeams b.round b.pickInRound) :
    makePick s b = Except.ok (makePickWrite s b)
    ∧ (makePickWrite s b).picks = s.picks ++ [insertedPick b]
    ∧ (makePickWrite s b).draft.currentPick = b.pickNumber + 1 := by
  have hcheck : makePickCheck s b = none := by
    simp [makePickCheck, h1, h2, List.elem_eq_mem, h3, List.any_eq_true]
    intro p hp
    simpa using h4 p hp
  refine ⟨by simp [makePick, hcheck], by simp [makePickWrite], ?_⟩
  simp only [makePickWrite]
  split <;> rfl

/-- Claim C1 (witness): the amended theorem applied to the
counterexample input. -/
theorem claim_C1_witness :
    makePick ⟨⟨DraftType.snake, 12, 6, 13, 1, 1, DraftStatus.setup⟩, [7], []⟩
        ⟨7, 2, 1, 1, 1, false⟩
      = Except.ok (makePickWrite
          ⟨⟨DraftType.snake, 12, 6, 13, 1, 1, DraftStatus.setup⟩, [7], []⟩
          ⟨7, 2, 1, 1, 1, false⟩)
    ∧ (makePickWrite
          ⟨⟨DraftType.snake, 12, 6, 13, 1, 1, DraftStatus.setup⟩, [7], []⟩
          ⟨7, 2, 1, 1, 1, false⟩).picks = [] ++ [insertedPick ⟨7, 2, 1, 1, 1, false⟩]
    ∧ (makePickWrite
          ⟨⟨DraftType.snake, 12, 6, 13, 1, 1, DraftStatus.setup⟩, [7], []⟩
          ⟨7, 2, 1, 1, 1, false⟩).draft.currentPick = 1 + 1 :=
  claim_C1_amended _ _ (by decide) (by decide) (by decide)
    (by intro p hp; simp at hp) (by decide)

/-- Claim C2 (counterexample): with currentPick = 5, a submission with
pickNumber = 9 succeeds and sets currentPick to 10 — the pick was not
submitted at the draft's currentPick, and currentPick grew by 5, not
by 1. -/
theorem claim_C2_counterexample :
    makePick ⟨⟨DraftType.snake, 12, 6, 13, 1, 5, DraftStatus.inProgress⟩,
        [9], []⟩ ⟨9, 4, 1, 9, 9, false⟩
      = Except.ok ⟨⟨DraftType.snake, 12, 6, 13, 1, 10, DraftStatus.inProgress⟩,
          [9], [⟨9, 4, 1, 9, 9, false⟩]⟩
    ∧ (⟨9, 4, 1, 9, 9, false⟩ : PickSubmission).pickNumber ≠
        (⟨⟨DraftType.snake, 12, 6, 13, 1, 5, DraftStatus.inProgress⟩,
          [9], []⟩ : DbState).draft.currentPick
    ∧ (⟨⟨DraftType.snake, 12, 6, 13, 1, 10, DraftStatus.inProgress⟩,
          [9], [⟨9, 4, 1, 9, 9, false⟩]⟩ : DbState).draft.currentPick ≠
        (⟨⟨DraftType.snake, 12, 6, 13, 1, 5, DraftStatus.inProgress⟩,
          [9], []⟩ : DbState).draft.currentPick + 1 :=
  ⟨rfl, by decide, by decide⟩

/-- Claim C2 (amended): a successful MakePick sets currentPick to the
submitted pickNumber + 1 — there is no check that pickNumber equals the
draft's currentPick, so currentPick increases by exactly 1 precisely
when the client happened to submit pickNumber = currentPick.  A
successful UndoLastPick sets currentPick to the undone pick's
pickNumber (a decrease of exactly 1 only when the state was in sync). -/
theorem claim_C2_amended :
    (∀ s s1 b, makePick s b = Except.ok s1 →
        s1.draft.currentPick = b.pickNumber + 1
        ∧ (s1.draft.currentPick = s.draft.currentPick + 1 ↔
            b.pickNumber = s.draft.currentPick))
    ∧ (∀ s s2 i q, lastPickEntry s.picks = some (i, q) →
        undoLastPick s = Except.ok s2 →
        s2.draft.currentPick = q.pickNumber) := by
  constructor
  · intro s s1 b hok
    have hs1 : s1 = makePickWrite s b := by
      cases hcheck : makePickCheck s b with
      | none => simpa [makePick, hcheck] using hok.symm
      | some e => simp [makePick, hcheck] at hok
    have hcp : s1.draft.currentPick = b.pickNumber + 1 := by
      subst hs1
      simp only [makePickWrite]
      split <;> rfl
    exact ⟨hcp, by omega⟩
  · intro s s2 i q hlast hok
    cases hu : q.isUserPick with
    | false => simp [undoLastPick, hlast, hu] at hok
    | true =>
      have : s2 = { s with
          picks := s.picks.eraseIdx i
          draft := { s.draft with
            status := if q.pickNumber = 1 then DraftStatus.setup
              else DraftStatus.inProgress
            currentRound := q.round
            currentPick := q.pickNumber } } := by
        simpa [undoLastPick, hlast, hu] using hok.symm
      subst this
      rfl

/-- Claim C2 (witness): the amended theorem applied to a successful
pick at pickNumber 1 from currentPick 1. -/
theorem claim_C2_witness :
    (⟨⟨DraftType.snake, 12, 6, 13, 1, 2, DraftStatus.inProgress⟩, [7],
        [⟨7, 1, 1, 1, 1, false⟩]⟩ : DbState).draft.currentPick =
      (⟨7, 1, 1, 1, 1, false⟩ : PickSubmission).pickNumber + 1
    ∧ ((⟨⟨DraftType.snake, 12, 6, 13, 1, 2, DraftStatus.inProgress⟩, [7],
        [⟨7, 1, 1, 1, 1, false⟩]⟩ : DbState).draft.currentPick =
        (⟨⟨DraftType.snake, 12, 6, 13, 1, 1, DraftStatus.setup⟩, [7],
          []⟩ : DbState).draft.currentPick + 1 ↔
        (⟨7, 1, 1, 1, 1, false⟩ : PickSubmission).pickNumber =
        (⟨⟨DraftType.snake, 12, 6, 13, 1, 1, DraftStatus.setup⟩, [7],
          []⟩ : DbState).draft.currentPick) :=
  claim_C2_amended.1
    ⟨⟨DraftType.snake, 12, 6, 13, 1, 1, DraftStatus.setup⟩, [7], []⟩
    ⟨⟨DraftType.snake, 12, 6, 13, 1, 2, DraftStatus.inProgress⟩, [7],
      [⟨7, 1, 1, 1, 1, false⟩]⟩
    ⟨7, 1, 1, 1, 1, false⟩ rfl

/-- Claim C5 (counterexample): the draft's own seat is 6, the most
recent pick was recorded for seat 3 with isUserPick = true, and the
undo succeeds — the handler never compares the pick's teamNumber with
the requesting seat, so a pick "belonging to another seat" is undone
rather than rejected with ForbiddenUndo. -/
theorem claim_C5_counterexample :
    undoLastPick ⟨⟨DraftType.snake, 12, 6, 13, 1, 2, DraftStatus.inProgress⟩,
        [7], [⟨7, 3, 1, 1, 3, true⟩]⟩
      = Except.ok ⟨⟨DraftType.snake, 12, 6, 13, 1, 1, DraftStatus.setup⟩,
          [7], []⟩
    ∧ (⟨7, 3, 1, 1, 3, true⟩ : DraftPick).teamNumber ≠
        (⟨⟨DraftType.snake, 12, 6, 13, 1, 2, DraftStatus.inProgress⟩,
          [7], [⟨7, 3, 1, 1, 3, true⟩]⟩ : DbState).draft.draftPosition :=
  ⟨rfl, by decide⟩

/-- Claim C5 (amended): UndoLastPick succeeds exactly when at least one
pick exists and the most recent pick (highest pickNumber) has
isUserPick = true; the pick's teamNumber is never compared with the
requester's seat.  With no picks it fails with NoPicksToUndo and with a
non-user last pick it fails with ForbiddenUndo, in both cases before
any mutation. -/
theorem claim_C5_amended (s : DbState) :
    ((∃ t, undoLastPick s = Except.ok t) ↔
      ∃ i q, lastPickEntry s.picks = some (i, q) ∧ q.isUserPick = true)
    ∧ (s.picks = [] → undoLastPick s = Except.error UndoError.noPicksToUndo)
    ∧ (∀ i q, lastPickEntry s.picks = some (i, q) → q.isUserPick = false →
        undoLastPick s = Except.error UndoError.forbiddenUndo) := by
  refine ⟨?_, ?_, ?_⟩
  · constructor
    · rintro ⟨t, ht⟩
      cases hlast : lastPickEntry s.picks with
      | none => simp [undoLastPick, hlast] at ht
      | some iq =>
        obtain ⟨i, q⟩ := iq
        cases hu : q.isUserPick with
        | false => simp [undoLastPick, hlast, hu] at ht
        | true => exact ⟨i, q, rfl, hu⟩
    · rintro ⟨i, q, hlast, hu⟩
      cases hres : undoLastPick s with
      | error e => simp [undoLastPick, hlast, hu] at hres
      | ok t => exact ⟨t, rfl⟩
  · intro hnil
    simp [undoLastPick, hnil, lastPickEntry]
  · intro i q hlast hu
    simp [undoLastPick, hlast, hu]

/-- Claim C5 (witness): the amended theorem applied to a state whose
last pick is not a user pick, giving the ForbiddenUndo answer. -/
theorem claim_C5_witness :
    undoLastPick ⟨⟨DraftType.snake, 12, 6, 13, 1, 2, DraftStatus.inProgress⟩,
        [7], [⟨7, 3, 1, 1, 3, false⟩]⟩
      = Except.error UndoError.forbiddenUndo :=
  (claim_C5_amended
    ⟨⟨DraftType.snake, 12, 6, 13, 1, 2, DraftStatus.inProgress⟩,
      [7], [⟨7, 3, 1, 1, 3, false⟩]⟩).2.2 0 ⟨7, 3, 1, 1, 3, false⟩ rfl rfl

/-- Claim C9 (counterexample): two requests for the same player and the
same pickNumber are interleaved so that both read phases see the empty
pick list before either write runs (the handler opens no transaction
and the table has no unique constraint to stop the second insert): both
succeed and two rows for player 7 at pickNumber 1 are inserted — not
"at most one succeeds, the rest receive Conflict". -/
theorem claim_C9_counterexample :
    interleavedMakePicks
        ⟨⟨DraftType.snake, 12, 6, 13, 1, 1, DraftStatus.setup⟩, [7], []⟩
        ⟨7, 1, 1, 1, 1, true⟩ ⟨7, 1, 1, 1, 1, false⟩
      = some ⟨⟨DraftType.snake, 12, 6, 13, 1, 2, DraftStatus.inProgress⟩,
          [7], [⟨7, 1, 1, 1, 1, true⟩, ⟨7, 1, 1, 1, 1, false⟩]⟩
    ∧ (⟨7, 1, 1, 1, 1, true⟩ : DraftPick).playerId =
        (⟨7, 1, 1, 1, 1, false⟩ : DraftPick).playerId
    ∧ (⟨7, 1, 1, 1, 1, true⟩ : DraftPick).pickNumber =
        (⟨7, 1, 1, 1, 1, false⟩ : DraftPick).pickNumber := by
  decide

/-- Claim C9 (amended): the draft_picks table declares only non-unique
indexes — there is no uniqueness constraint on (draftId, playerId) or
(draftId, pickNumber) — and the duplicate check is an application-level
select that is not atomic with the insert.  Consequently, whenever two
concurrent MakePick requests both pass their read phase against the
same snapshot, both writes succeed and both rows are inserted; no
Conflict error exists. -/
theorem claim_C9_amended :
    (∀ idx ∈ draftPicksIndexes, idx.unique = false)
    ∧ (∀ s b1 b2, makePickCheck s b1 = none → makePickCheck s b2 = none →
        interleavedMakePicks s b1 b2 =
            some (makePickWrite (makePickWrite s b1) b2)
        ∧ insertedPick b1 ∈ (makePickWrite (makePickWrite s b1) b2).picks
        ∧ insertedPick b2 ∈ (makePickWrite (makePickWrite s b1) b2).picks) := by
  refine ⟨by decide, ?_⟩
  intro s b1 b2 h1 h2
  refine ⟨by simp [interleavedMakePicks, h1, h2], ?_, ?_⟩ <;>
    simp [makePickWrite]

/-- Claim C9 (witness): the amended theorem applied to the interleaved
double submission of player 7. -/
theorem claim_C9_witness :
    interleavedMakePicks
        ⟨⟨DraftType.snake, 12, 6, 13, 1, 1, DraftStatus.setup⟩, [7], []⟩
        ⟨7, 1, 1, 1, 1, true⟩ ⟨7, 1, 1, 1, 1, false⟩
      = some (makePickWrite (makePickWrite
          ⟨⟨DraftType.snake, 12, 6, 13, 1, 1, DraftStatus.setup⟩, [7], []⟩
          ⟨7, 1, 1, 1, 1, true⟩) ⟨7, 1, 1, 1, 1, false⟩)
    ∧ insertedPick ⟨7, 1, 1, 1, 1, true⟩ ∈ (makePickWrite (makePickWrite
          ⟨⟨DraftType.snake, 12, 6, 13, 1, 1, DraftStatus.setup⟩, [7], []⟩
          ⟨7, 1, 1, 1, 1, true⟩) ⟨7, 1, 1, 1, 1, false⟩).picks
    ∧ insertedPick ⟨7, 1, 1, 1, 1, false⟩ ∈ (makePickWrite (makePickWrite
          ⟨⟨DraftType.snake, 12, 6, 13, 1, 1, DraftStatus.setup⟩, [7], []⟩
          ⟨7, 1, 1, 1, 1, true⟩) ⟨7, 1, 1, 1, 1, false⟩).picks :=
  claim_C9_amended.2
    ⟨⟨DraftType.snake, 12, 6, 13, 1, 1, DraftStatus.setup⟩, [7], []⟩
    ⟨7, 1, 1, 1, 1, true⟩ ⟨7, 1, 1, 1, 1, false⟩ rfl rfl

/-- When a pick's pickNumber exceeds every stored pickNumber, the row
selected by ORDER BY pick_number DESC LIMIT 1 after appending it is
that row, at the last position. -/
theorem lastPickEntry_append_last (ps : List DraftPick) (x : DraftPick)
    (h : ∀ p ∈ ps, p.pickNumber < x.pickNumber) :
    lastPickEntry (ps ++ [x]) = some (ps.length, x) := by
  induction ps with
  | nil => rfl
  | cons a t ih =>
    have ht : ∀ p ∈ t, p.pickNumber < x.pickNumber :=
      fun p hp => h p (List.mem_cons_of_mem _ hp)
    have ha : a.pickNumber < x.pickNumber := h a (List.mem_cons_self _ _)
    simp [lastPickEntry, ih ht, ha]

/-- Deleting the appended row restores the original list. -/
theorem eraseIdx_append_last {α : Type} (ps : List α) (x : α) :
    (ps ++ [x]).eraseIdx ps.length = ps := by
  induction ps with
  | nil => rfl
  | cons a t ih => simp [List.eraseIdx, ih]

/-- Claim C4 (counterexample): at a round boundary the round trip does
not restore currentRound.  State: 12-team draft, currentRound = 1,
currentPick = 13 (round 1 just finished).  MakePick for pick 13 of
round 2 then UndoLastPick yields currentRound = 2, although it was 1
before the pick — undo rewinds to the undone pick's round, not to the
pre-pick value. -/
theorem claim_C4_counterexample :
    undoAfterPick ⟨⟨DraftType.snake, 12, 6, 13, 1, 13, DraftStatus.inProgress⟩,
        [7], []⟩ ⟨7, 7, 2, 13, 1, true⟩
      = some ⟨⟨DraftType.snake, 12, 6, 13, 2, 13, DraftStatus.inProgress⟩,
          [7], []⟩
    ∧ (⟨⟨DraftType.snake, 12, 6, 13, 2, 13, DraftStatus.inProgress⟩,
          [7], []⟩ : DbState).draft.currentRound ≠
        (⟨⟨DraftType.snake, 12, 6, 13, 1, 13, DraftStatus.inProgress⟩,
          [7], []⟩ : DbState).draft.currentRound := by
  exact ⟨rfl, by decide⟩

/-- Claim C4 (amended): UndoLastPick immediately after a successful
MakePick (of a user pick whose pickNumber exceeds all stored picks)
removes the inserted row, sets currentPick to the submitted pickNumber
and currentRound to the submitted round, and reverts status to setup
exactly when the undone pick was pick number 1.  These equal the
pre-pick currentPick/currentRound exactly when the submission matched
the draft state (pickNumber = currentPick, round = currentRound) — the
handler does not enforce that, and at a round boundary the stored
currentRound is the previous pick's round, so it is not restored. -/
theorem claim_C4_amended (s s1 : DbState) (b : PickSubmission)
    (hok : makePick s b = Except.ok s1)
    (hmax : ∀ p ∈ s.picks, p.pickNumber < b.pickNumber)
    (huser : b.isUserPick = true) :
    ∃ s2, undoLastPick s1 = Except.ok s2
      ∧ s2.picks = s.picks
      ∧ s2.draft.currentPick = b.pickNumber
      ∧ s2.draft.currentRound = b.round
      ∧ (s2.draft.status = DraftStatus.setup ↔ b.pickNumber = 1)
      ∧ (b.pickNumber = s.draft.currentPick →
          s2.draft.currentPick = s.draft.currentPick)
      ∧ (b.round = s.draft.currentRound →
          s2.draft.currentRound = s.draft.currentRound) := by
  have hs1 : s1 = makePickWrite s b := by
    cases hcheck : makePickCheck s b with
    | none => simpa [makePick, hcheck] using hok.symm
    | some e => simp [makePick, hcheck] at hok
  have hpicks : s1.picks = s.picks ++ [insertedPick b] := by
    subst hs1
    simp [makePickWrite]
  have hlast : lastPickEntry s1.picks = some (s.picks.length, insertedPick b) := by
    rw [hpicks]
    exact lastPickEntry_append_last s.picks (insertedPick b) hmax
  have hiu : (insertedPick b).isUserPick = true := huser
  refine ⟨{ s1 with
      picks := s1.picks.eraseIdx s.picks.length
      draft := { s1.draft with
        status := if (insertedPick b).pickNumber = 1 then DraftStatus.setup
          else DraftStatus.inProgress
        currentRound := (insertedPick b).round
        currentPick := (insertedPick b).pickNumber } },
    by simp [undoLastPick, hlast, hiu], ?_, ?_, ?_, ?_, ?_, ?_⟩
  · rw [hpicks]
    exact eraseIdx_append_last s.picks (insertedPick b)
  · rfl
  · rfl
  · show (if (insertedPick b).pickNumber = 1 then DraftStatus.setup
      else DraftStatus.inProgress) = DraftStatus.setup ↔ b.pickNumber = 1
    by_cases hone : b.pickNumber = 1 <;>
      simp [insertedPick, hone]
  · intro heq
    exact heq
  · intro heq
    exact heq

/-- Claim C4 (witness): the amended theorem applied to the first pick
of a fresh draft; the undone state has currentPick 1, currentRound 1
and status setup. -/
theorem claim_C4_witness :
    ∃ s2, undoLastPick
        (makePickWrite
          ⟨⟨DraftType.snake, 12, 6, 13, 1, 1, DraftStatus.setup⟩, [7], []⟩
          ⟨7, 1, 1, 1, 1, true⟩) = Except.ok s2
      ∧ s2.picks = ([] : List DraftPick)
      ∧ s2.draft.currentPick = 1
      ∧ s2.draft.currentRound = 1
      ∧ (s2.draft.status = DraftStatus.setup ↔ (1 : Nat) = 1)
      ∧ ((1 : Nat) = 1 → s2.draft.currentPick = 1)
      ∧ ((1 : Nat) = 1 → s2.draft.currentRound = 1) :=
  claim_C4_amended
    ⟨⟨DraftType.snake, 12, 6, 13, 1, 1, DraftStatus.setup⟩, [7], []⟩
    (makePickWrite
      ⟨⟨DraftType.snake, 12, 6, 13, 1, 1, DraftStatus.setup⟩, [7], []⟩
      ⟨7, 1, 1, 1, 1, true⟩)
    ⟨7, 1, 1, 1, 1, true⟩ rfl (by intro p hp; simp at hp) rfl

/-- The 1-based round recovered from an overall pick number laid out as
(round − 1) · numTeams + pickInRound is its ceiling division. -/
theorem round_of_pickNumber (N r q : Nat) (hN : 1 ≤ N) (hr : 1 ≤ r)
    (hq1 : 1 ≤ q) (hqN : q ≤ N) :
    ((r - 1) * N + q + N - 1) / N = r := by
  have key : (r - 1) * N + q + N - 1 = (q - 1) + N * r := by
    have h1 : (r - 1) * N = r * N - N := by
      cases r with
      | zero => omega
      | succ r0 => simp [Nat.succ_sub_one, Nat.succ_mul]
    rw [h1, Nat.mul_comm]
    have h2 : N ≤ N * r := Nat.le_mul_of_pos_right N hr
    omega
  rw [key, Nat.add_mul_div_left _ _ (by omega : 0 < N),
    Nat.div_eq_of_lt (by omega : q - 1 < N)]
  omega

/-- The seat sequence of one board round: ascending 1..N in odd rounds
and its reverse in even rounds. -/
theorem roundSeats_eq (N r : Nat) :
    roundSeats N r =
      if r % 2 = 1 then ascendingSeats N else (ascendingSeats N).reverse := by
  by_cases h : r % 2 = 1
  · simp [roundSeats, ascendingSeats, snakeTeamNumber, snakeTeamIndex, h]
  · simp only [roundSeats, ascendingSeats, snakeTeamNumber, snakeTeamIndex, h,
      if_neg, if_false]
    rw [← List.map_reverse, List.range_eq_range', List.reverse_range',
      List.map_map, ← List.range_eq_range']
    apply List.map_congr_left
    intro i hi
    simp only [List.mem_range] at hi
    simp only [Function.comp_apply]
    omega

/-- Claim C3: the snake board's seat for the pick at 1-based round r
and pick-in-round q (overall pick number (r−1)·numTeams + q, whose
ceiling-division round is r) is q in odd rounds and numTeams − q + 1 in
even rounds; one odd round visits seats 1..numTeams in ascending order,
the following even round visits them in descending order, and the seat
sequence of any two consecutive rounds is a palindrome around the round
boundary. -/
theorem claim_C3_snake_order (N r q : Nat) (hN : 1 ≤ N) (hr : 1 ≤ r)
    (hq1 : 1 ≤ q) (hqN : q ≤ N) :
    ((r - 1) * N + q + N - 1) / N = r
    ∧ (r - 1) * N + q - (r - 1) * N = q
    ∧ snakeTeamNumber N r q = (if r % 2 = 1 then q else N - q + 1)
    ∧ roundSeats N r =
        (if r % 2 = 1 then ascendingSeats N else (ascendingSeats N).reverse)
    ∧ (roundSeats N r ++ roundSeats N (r + 1)).reverse =
        roundSeats N r ++ roundSeats N (r + 1) := by
  refine ⟨round_of_pickNumber N r q hN hr hq1 hqN, by omega, ?_, roundSeats_eq N r, ?_⟩
  · by_cases h : r % 2 = 1 <;>
      simp [snakeTeamNumber, snakeTeamIndex, h] <;> omega
  · by_cases h : r % 2 = 1
    · have h1 : ¬ ((r + 1) % 2 = 1) := by omega
      rw [roundSeats_eq N r, roundSeats_eq N (r + 1)]
      simp [h, h1, List.reverse_append, List.reverse_reverse]
    · have h1 : (r + 1) % 2 = 1 := by omega
      rw [roundSeats_eq N r, roundSeats_eq N (r + 1)]
      simp [h, h1, List.reverse_append, List.reverse_reverse]

/-- Claim C3 (witness): the spec's own scenario — 12 teams, round 2,
pick-in-round 7 (overall pick 19): the seat is 12 − 7 + 1 = 6, round 2
runs 12..1 descending, and rounds 2 and 3 form a palindrome. -/
theorem claim_C3_witness :
    ((2 - 1) * 12 + 7 + 12 - 1) / 12 = 2
    ∧ (2 - 1) * 12 + 7 - (2 - 1) * 12 = 7
    ∧ snakeTeamNumber 12 2 7 = (if 2 % 2 = 1 then 7 else 12 - 7 + 1)
    ∧ roundSeats 12 2 =
        (if 2 % 2 = 1 then ascendingSeats 12 else (ascendingSeats 12).reverse)
    ∧ (roundSeats 12 2 ++ roundSeats 12 (2 + 1)).reverse =
        roundSeats 12 2 ++ roundSeats 12 (2 + 1) :=
  claim_C3_snake_order 12 2 7 (by decide) (by decide) (by decide) (by decide)

/-- Two strings that differ within their first two characters differ. -/
theorem label_ne_of_ne_take2 (x y : String)
    (h : x.data.take 2 ≠ y.data.take 2) : x ≠ y := by
  intro he
  exact h (he ▸ rfl)

/-- The prepared pool is sorted ascending by the JavaScript sort key
(`adp || 999`). -/
theorem sortedByAdp_sorted (ps : List Player) :
    List.Pairwise (fun a b => adpOr999 a ≤ adpOr999 b) (sortedByAdp ps) := by
  haveI : IsTotal Player (fun a b => adpOr999 a ≤ adpOr999 b) :=
    ⟨fun a b => le_total _ _⟩
  haveI : IsTrans Player (fun a b => adpOr999 a ≤ adpOr999 b) :=
    ⟨fun _ _ _ h1 h2 => le_trans h1 h2⟩
  exact List.sorted_insertionSort _ _

/-- Every member of the prepared pool has a non-null ADP — the filter
removed the null-ADP players before sorting. -/
theorem sortedByAdp_mem_adp (ps : List Player) (p : Player)
    (h : p ∈ sortedByAdp ps) : p.adp ≠ none := by
  have hperm := List.perm_insertionSort
    (fun a b => adpOr999 a ≤ adpOr999 b) (ps.filter (fun p => p.adp.isSome))
  have hmem : p ∈ ps.filter (fun p => p.adp.isSome) := hperm.mem_iff.mp h
  have hsome := List.of_mem_filter hmem
  exact Option.isSome_iff_ne_none.mp hsome

/-- The prepared pool has the length of the non-null-ADP sublist. -/
theorem sortedByAdp_length (ps : List Player) :
    (sortedByAdp ps).length = (ps.filter (fun p => p.adp.isSome)).length :=
  (List.perm_insertionSort _ _).length_eq

/-- Mapping a function of the element over an enumerated list. -/
theorem enum_map_snd_comp {α β : Type} (l : List α) (f : α → β) :
    l.enum.map (fun ip => f ip.2) = l.map f := by
  have h := congrArg (List.map f) (List.enum_map_snd l)
  rw [List.map_map] at h
  exact h

/-- Mapping a function of the index over an enumerated list. -/
theorem enum_map_fst_comp {α β : Type} (l : List α) (f : Nat → β) :
    l.enum.map (fun ip => f ip.1) = (List.range l.length).map f := by
  have h := congrArg (List.map f) (List.enum_map_fst l)
  rw [List.map_map] at h
  exact h

/-- Claim C7 (counterexample): a lone available player whose ADP is
null is dropped from the candidate list entirely — the list is empty —
whereas the claim places null-ADP players at the end of the (under-cap)
candidate list. -/
theorem claim_C7_counterexample :
    topAvailable [⟨1, "Null Adp Guy", none, some "PG", none⟩] = []
    ∧ [(⟨1, "Null Adp Guy", none, some "PG", none⟩ : Player)] ≠
        ([] : List Player) := by
  decide

/-- Claim C7 (amended): the candidate list embedded in the prompt is
the available players with non-null ADP, sorted ascending by the sort
key (`adp || 999`, so a 0 ADP sorts as 999), capped at 30; players with
null ADP are excluded from the list, not sorted last. -/
theorem claim_C7_amended (available : List Player) :
    (∀ p ∈ topAvailable available, p.adp ≠ none)
    ∧ List.Pairwise (fun a b => adpOr999 a ≤ adpOr999 b)
        (topAvailable available)
    ∧ (topAvailable available).length =
        min 30 (available.filter (fun p => p.adp.isSome)).length := by
  refine ⟨?_, ?_, ?_⟩
  · intro p hp
    exact sortedByAdp_mem_adp available p (List.mem_of_mem_take hp)
  · exact List.Pairwise.sublist (List.take_sublist _ _)
      (sortedByAdp_sorted available)
  · rw [topAvailable, List.length_take, sortedByAdp_length]
/-- Claim C7 (witness): the amended theorem applied to a one-player
pool with ADP 3; the player appears in the candidate list and has a
non-null ADP. -/
theorem claim_C7_witness :
    (⟨1, "Solo Guard", none, some "PG", some 3⟩ : Player).adp ≠ none :=
  (claim_C7_amended [⟨1, "Solo Guard", none, some "PG", some 3⟩]).1
    ⟨1, "Solo Guard", none, some "PG", some 3⟩ (by decide)

/-- Claim C6 (counterexample): six available players with ADP 1..6 and
a provider answer that decodes but yields zero usable recommendations
(an empty recommendations array): the result scores are [70,70,70,70,70]
— not the claimed 80,75,70,65,60 — and every entry is tagged
"best available" instead of first-only. -/
theorem claim_C6_counterexample :
    (generateRecommendations (ProviderResult.response (some ⟨[], none, none⟩))
        [⟨3, "P Three", none, some "SF", some 3⟩,
         ⟨1, "P One", none, some "PG", some 1⟩,
         ⟨6, "P Six", none, some "PG", some 6⟩,
         ⟨2, "P Two", none, some "SG", some 2⟩,
         ⟨5, "P Five", none, some "C", some 5⟩,
         ⟨4, "P Four", none, some "PF", some 4⟩]
        [] 1).recommendations.map PlayerRecommendation.score =
      [70, 70, 70, 70, 70]
    ∧ ([70, 70, 70, 70, 70] : List Int) ≠ [80, 75, 70, 65, 60]
    ∧ (generateRecommendations (ProviderResult.response (some ⟨[], none, none⟩))
        [⟨3, "P Three", none, some "SF", some 3⟩,
         ⟨1, "P One", none, some "PG", some 1⟩,
         ⟨6, "P Six", none, some "PG", some 6⟩,
         ⟨2, "P Two", none, some "SG", some 2⟩,
         ⟨5, "P Five", none, some "C", some 5⟩,
         ⟨4, "P Four", none, some "PF", some 4⟩]
        [] 1).recommendations.map PlayerRecommendation.tags =
      [["best available"], ["best available"], ["best available"],
       ["best available"], ["best available"]] := by
  refine ⟨rfl, by decide, rfl⟩

/-- Claim C6 (amended): when no provider is configured, or the provider
call fails or times out, GetRecommendations returns exactly the top 5
available players by ascending sort key (`adp || 999`; null ADP
excluded), the first tagged "best available" and the rest "value pick",
with scores 80 − 5·rank, strictly decreasing.  When instead the
provider answered but parsing yields zero usable recommendations (or
the answer does not decode), the result is the same top-5 list but with
every score equal to 70 and every entry tagged "best available". -/
theorem claim_C6_amended (available roster : List Player) (cp : Nat) :
    generateRecommendations ProviderResult.unavailable available roster cp =
        getFallbackRecommendations available roster cp
    ∧ generateRecommendations ProviderResult.failure available roster cp =
        getFallbackRecommendations available roster cp
    ∧ (getFallbackRecommendations available roster cp).recommendations.map
          PlayerRecommendation.playerId =
        ((sortedByAdp available).take 5).map Player.id
    ∧ (getFallbackRecommendations available roster cp).recommendations.map
          PlayerRecommendation.score =
        (List.range ((sortedByAdp available).take 5).length).map
          (fun i : Nat => (80 : Int) - 5 * (i : Int))
    ∧ (getFallbackRecommendations available roster cp).recommendations.map
          PlayerRecommendation.tags =
        (List.range ((sortedByAdp available).take 5).length).map
          (fun i => if i = 0 then ["best available"] else ["value pick"])
    ∧ List.Pairwise (fun a b : Int => b < a)
        ((getFallbackRecommendations available roster cp).recommendations.map
          PlayerRecommendation.score)
    ∧ List.Pairwise (fun a b => adpOr999 a ≤ adpOr999 b)
        ((sortedByAdp available).take 5)
    ∧ (∀ p ∈ (sortedByAdp available).take 5, p.adp ≠ none)
    ∧ (generateRecommendations
          (ProviderResult.response (some ⟨[], none, none⟩))
          available roster cp).recommendations.map
          PlayerRecommendation.score =
        ((sortedByAdp available).take 5).map (fun _ => (70 : Int))
    ∧ (generateRecommendations
          (ProviderResult.response (some ⟨[], none, none⟩))
          available roster cp).recommendations.map
          PlayerRecommendation.tags =
        ((sortedByAdp available).take 5).map (fun _ => ["best available"])
    ∧ (generateRecommendations (ProviderResult.response none)
          available roster cp).recommendations.map
          PlayerRecommendation.score =
        ((sortedByAdp available).take 5).map (fun _ => (70 : Int)) := by
  have hscore : (getFallbackRecommendations available roster cp).recommendations.map
      PlayerRecommendation.score =
      (List.range ((sortedByAdp available).take 5).length).map
        (fun i : Nat => (80 : Int) - 5 * (i : Int)) := by
    show (((sortedByAdp available).take 5).enum.map _).map _ = _
    rw [List.map_map]
    exact enum_map_fst_comp ((sortedByAdp available).take 5)
      (fun i : Nat => (80 : Int) - 5 * (i : Int))
  have htake : (zeroUsableRecs available).take 5 = zeroUsableRecs available := by
    apply List.take_of_length_le
    show (((sortedByAdp available).take 5).map _).length ≤ 5
    rw [List.length_map, List.length_take]
    omega
  refine ⟨rfl, rfl, ?_, hscore, ?_, ?_, ?_, ?_, ?_, ?_, ?_⟩
  · show (((sortedByAdp available).take 5).enum.map _).map _ = _
    rw [List.map_map]
    exact enum_map_snd_comp ((sortedByAdp available).take 5) Player.id
  · show (((sortedByAdp available).take 5).enum.map _).map _ = _
    rw [List.map_map]
    exact enum_map_fst_comp ((sortedByAdp available).take 5)
      (fun i => if i = 0 then ["best available"] else ["value pick"])
  · rw [hscore, List.pairwise_map]
    apply List.Pairwise.imp ?_ (List.pairwise_lt_range _)
    intro i j hij
    omega
  · exact List.Pairwise.sublist (List.take_sublist _ _)
      (sortedByAdp_sorted available)
  · intro p hp
    exact sortedByAdp_mem_adp available p (List.mem_of_mem_take hp)
  · show ((zeroUsableRecs available).take 5).map PlayerRecommendation.score = _
    rw [htake, zeroUsableRecs, List.map_map]
    rfl
  · show ((zeroUsableRecs available).take 5).map PlayerRecommendation.tags = _
    rw [htake, zeroUsableRecs, List.map_map]
    rfl
  · show (zeroUsableRecs available).map PlayerRecommendation.score = _
    rw [zeroUsableRecs, List.map_map]
    rfl

/-- Claim C6 (witness): the amended theorem applied to a one-player
pool; the player is in the top-5 list and has a non-null ADP. -/
theorem claim_C6_witness :
    (⟨1, "Lone Star", none, some "C", some 4⟩ : Player).adp ≠ none :=
  (claim_C6_amended [⟨1, "Lone Star", none, some "C", some 4⟩] [] 1).2.2.2.2.2.2.2.1
    ⟨1, "Lone Star", none, some "C", some 4⟩ (by decide)

/-- Claim C10 (counterexample): a roster holding a single (NFL) player
at position QB produces all five NBA positions as needs — not the
"balanced" sentinel the claim predicts for rosters with no players at
the five tracked positions. -/
theorem claim_C10_counterexample :
    analyzeRoster [⟨1, "QB Guy", some "KC", some "QB", some 1⟩] =
      ⟨[], ["PG (have 0, need 2)", "SG (have 0, need 2)",
            "SF (have 0, need 2)", "PF (have 0, need 2)",
            "C (have 0, need 2)"]⟩
    ∧ ["PG (have 0, need 2)", "SG (have 0, need 2)", "SF (have 0, need 2)",
       "PF (have 0, need 2)", "C (have 0, need 2)"] ≠
        ["Roster is well-balanced"] := by
  constructor
  · rfl
  · decide

/-- Claim C10 (amended): the ideal-composition table is fixed to
exactly PG, SG, SF, PF, C with ideal count 2 each, and players at any
other position are never counted; consequently a roster with no
players at those five positions yields empty strengths and all five
positions flagged as needs ("have 0, need 2") — never the balanced
sentinel. -/
theorem claim_C10_amended (roster : List Player)
    (h : ∀ p ∈ roster, primaryPosition p ∉ ["PG", "SG", "SF", "PF", "C"]) :
    IDEAL_ROSTER_COMPOSITION =
        [("PG", 2), ("SG", 2), ("SF", 2), ("PF", 2), ("C", 2)]
    ∧ (analyzeRoster roster).strengths = []
    ∧ (analyzeRoster roster).needs =
        [needLabel "PG" 0 2, needLabel "SG" 0 2, needLabel "SF" 0 2,
         needLabel "PF" 0 2, needLabel "C" 0 2] := by
  have hcount : ∀ pos ∈ ["PG", "SG", "SF", "PF", "C"],
      positionCount roster pos = 0 := by
    intro pos hpos
    rw [positionCount, List.length_eq_zero, List.filter_eq_nil_iff]
    intro p hp
    simp only [beq_iff_eq]
    intro he
    exact h p hp (he ▸ hpos)
  have h1 := hcount "PG" (by simp)
  have h2 := hcount "SG" (by simp)
  have h3 := hcount "SF" (by simp)
  have h4 := hcount "PF" (by simp)
  have h5 := hcount "C" (by simp)
  refine ⟨rfl, ?_, ?_⟩ <;>
    simp [analyzeRoster, IDEAL_ROSTER_COMPOSITION, h1, h2, h3, h4, h5]

/-- Claim C10 (witness): the amended theorem applied to the QB roster. -/
theorem claim_C10_witness :
    IDEAL_ROSTER_COMPOSITION =
        [("PG", 2), ("SG", 2), ("SF", 2), ("PF", 2), ("C", 2)]
    ∧ (analyzeRoster [⟨1, "QB Guy", some "KC", some "QB", some 1⟩]).strengths = []
    ∧ (analyzeRoster [⟨1, "QB Guy", some "KC", some "QB", some 1⟩]).needs =
        [needLabel "PG" 0 2, needLabel "SG" 0 2, needLabel "SF" 0 2,
         needLabel "PF" 0 2, needLabel "C" 0 2] :=
  claim_C10_amended [⟨1, "QB Guy", some "KC", some "QB", some 1⟩] (by decide)

/-- Claim C8: a position of the ideal table is reported as a strength
exactly when its primary-position count is at least the ideal, and
flagged as a need exactly when the count is strictly below ideal − 1;
a count exactly one short is flagged as neither; when no position
qualifies as a need the needs list is the single sentinel
"Roster is well-balanced", and the needs list is never empty. -/
theorem claim_C8_roster_analysis (roster : List Player) (pos : String)
    (ideal : Nat) (h : (pos, ideal) ∈ IDEAL_ROSTER_COMPOSITION) :
    (strengthLabel pos (positionCount roster pos) ∈
        (analyzeRoster roster).strengths ↔ ideal ≤ positionCount roster pos)
    ∧ (needLabel pos (positionCount roster pos) ideal ∈
        (analyzeRoster roster).needs ↔ positionCount roster pos < ideal - 1)
    ∧ (positionCount roster pos = ideal - 1 →
        strengthLabel pos (positionCount roster pos) ∉
            (analyzeRoster roster).strengths
        ∧ needLabel pos (positionCount roster pos) ideal ∉
            (analyzeRoster roster).needs)
    ∧ ((∀ pi ∈ IDEAL_ROSTER_COMPOSITION,
          ¬ (positionCount roster pi.1 < pi.2 - 1)) →
        (analyzeRoster roster).needs = ["Roster is well-balanced"])
    ∧ (analyzeRoster roster).needs ≠ [] := by
  have hneed4 : (∀ pi ∈ IDEAL_ROSTER_COMPOSITION,
      ¬ (positionCount roster pi.1 < pi.2 - 1)) →
      (analyzeRoster roster).needs = ["Roster is well-balanced"] := by
    intro hall
    have hmnil : IDEAL_ROSTER_COMPOSITION.filterMap (fun pi =>
        if positionCount roster pi.1 < pi.2 - 1 then
          some (needLabel pi.1 (positionCount roster pi.1) pi.2)
        else none) = [] := by
      rw [List.filterMap_eq_nil_iff]
      intro pi hpi
      simp [hall pi hpi]
    simp only [analyzeRoster]
    rw [hmnil]
    rfl
  have hne : (analyzeRoster roster).needs ≠ [] := by
    simp only [analyzeRoster]
    split
    · simp
    next hx => exact hx
  simp only [IDEAL_ROSTER_COMPOSITION, List.mem_cons,
    List.mem_singleton, Prod.mk.injEq, List.not_mem_nil, or_false] at h
  rcases h with ⟨rfl, rfl⟩ | ⟨rfl, rfl⟩ | ⟨rfl, rfl⟩ | ⟨rfl, rfl⟩ | ⟨rfl, rfl⟩
  · -- pos = "PG"
    have s1 : ∀ d c : Nat, strengthLabel "SG" d ≠ strengthLabel "PG" c :=
      fun d c => label_ne_of_ne_take2 _ _ (by show ¬ (['S','G'] = ['P','G']); decide)
    have s2 : ∀ d c : Nat, strengthLabel "SF" d ≠ strengthLabel "PG" c :=
      fun d c => label_ne_of_ne_take2 _ _ (by show ¬ (['S','F'] = ['P','G']); decide)
    have s3 : ∀ d c : Nat, strengthLabel "PF" d ≠ strengthLabel "PG" c :=
      fun d c => label_ne_of_ne_take2 _ _ (by show ¬ (['P','F'] = ['P','G']); decide)
    have s4 : ∀ d c : Nat, strengthLabel "C" d ≠ strengthLabel "PG" c :=
      fun d c => label_ne_of_ne_take2 _ _ (by show ¬ (['C',' '] = ['P','G']); decide)
    have m1 : ∀ d i c j : Nat, needLabel "SG" d i ≠ needLabel "PG" c j :=
      fun d i c j => label_ne_of_ne_take2 _ _ (by show ¬ (['S','G'] = ['P','G']); decide)
    have m2 : ∀ d i c j : Nat, needLabel "SF" d i ≠ needLabel "PG" c j :=
      fun d i c j => label_ne_of_ne_take2 _ _ (by show ¬ (['S','F'] = ['P','G']); decide)
    have m3 : ∀ d i c j : Nat, needLabel "PF" d i ≠ needLabel "PG" c j :=
      fun d i c j => label_ne_of_ne_take2 _ _ (by show ¬ (['P','F'] = ['P','G']); decide)
    have m4 : ∀ d i c j : Nat, needLabel "C" d i ≠ needLabel "PG" c j :=
      fun d i c j => label_ne_of_ne_take2 _ _ (by show ¬ (['C',' '] = ['P','G']); decide)
    have msent : ∀ c j : Nat, needLabel "PG" c j ≠ "Roster is well-balanced" :=
      fun c j => label_ne_of_ne_take2 _ _ (by show ¬ (['P','G'] = ['R','o']); decide)
    have hiff1 : strengthLabel "PG" (positionCount roster "PG") ∈
        (analyzeRoster roster).strengths ↔ 2 ≤ positionCount roster "PG" := by
      simp only [analyzeRoster]
      simp [IDEAL_ROSTER_COMPOSITION, List.mem_filterMap,
        Option.ite_none_right_eq_some, s1, s2, s3, s4]
    have hiff2 : needLabel "PG" (positionCount roster "PG") 2 ∈
        (analyzeRoster roster).needs ↔ positionCount roster "PG" < 2 - 1 := by
      simp only [analyzeRoster]
      split
      next hmnil =>
        constructor
        · intro hmem
          simp [msent] at hmem
        · intro hlt
          exfalso
          have hin : needLabel "PG" (positionCount roster "PG") 2 ∈
              IDEAL_ROSTER_COMPOSITION.filterMap (fun pi =>
                if positionCount roster pi.1 < pi.2 - 1 then
                  some (needLabel pi.1 (positionCount roster pi.1) pi.2)
                else none) :=
            List.mem_filterMap.mpr ⟨("PG", 2),
              by simp [IDEAL_ROSTER_COMPOSITION], by simp [hlt]⟩
          rw [hmnil] at hin
          simp at hin
      next =>
        simp [IDEAL_ROSTER_COMPOSITION, List.mem_filterMap,
          Option.ite_none_right_eq_some, m1, m2, m3, m4]
    refine ⟨hiff1, hiff2, ?_, hneed4, hne⟩
    intro hc
    refine ⟨fun hmem => ?_, fun hmem => ?_⟩
    · have := hiff1.mp hmem
      omega
    · have := hiff2.mp hmem
      omega
  · -- pos = "SG"
    have s1 : ∀ d c : Nat, strengthLabel "PG" d ≠ strengthLabel "SG" c :=
      fun d c => label_ne_of_ne_take2 _ _ (by show ¬ (['P','G'] = ['S','G']); decide)
    have s2 : ∀ d c : Nat, strengthLabel "SF" d ≠ strengthLabel "SG" c :=
      fun d c => label_ne_of_ne_take2 _ _ (by show ¬ (['S','F'] = ['S','G']); decide)
    have s3 : ∀ d c : Nat, strengthLabel "PF" d ≠ strengthLabel "SG" c :=
      fun d c => label_ne_of_ne_take2 _ _ (by show ¬ (['P','F'] = ['S','G']); decide)
    have s4 : ∀ d c : Nat, strengthLabel "C" d ≠ strengthLabel "SG" c :=
      fun d c => label_ne_of_ne_take2 _ _ (by show ¬ (['C',' '] = ['S','G']); decide)
    have m1 : ∀ d i c j : Nat, needLabel "PG" d i ≠ needLabel "SG" c j :=
      fun d i c j => label_ne_of_ne_take2 _ _ (by show ¬ (['P','G'] = ['S','G']); decide)
    have m2 : ∀ d i c j : Nat, needLabel "SF" d i ≠ needLabel "SG" c j :=
      fun d i c j => label_ne_of_ne_take2 _ _ (by show ¬ (['S','F'] = ['S','G']); decide)
    have m3 : ∀ d i c j : Nat, needLabel "PF" d i ≠ needLabel "SG" c j :=
      fun d i c j => label_ne_of_ne_take2 _ _ (by show ¬ (['P','F'] = ['S','G']); decide)
    have m4 : ∀ d i c j : Nat, needLabel "C" d i ≠ needLabel "SG" c j :=
      fun d i c j => label_ne_of_ne_take2 _ _ (by show ¬ (['C',' '] = ['S','G']); decide)
    have msent : ∀ c j : Nat, needLabel "SG" c j ≠ "Roster is well-balanced" :=
      fun c j => label_ne_of_ne_take2 _ _ (by show ¬ (['S','G'] = ['R','o']); decide)
    have hiff1 : strengthLabel "SG" (positionCount roster "SG") ∈
        (analyzeRoster roster).strengths ↔ 2 ≤ positionCount roster "SG" := by
      simp only [analyzeRoster]
      simp [IDEAL_ROSTER_COMPOSITION, List.mem_filterMap,
        Option.ite_none_right_eq_some, s1, s2, s3, s4]
    have hiff2 : needLabel "SG" (positionCount roster "SG") 2 ∈
        (analyzeRoster roster).needs ↔ positionCount roster "SG" < 2 - 1 := by
      simp only [analyzeRoster]
      split
      next hmnil =>
        constructor
        · intro hmem
          simp [msent] at hmem
        · intro hlt
          exfalso
          have hin : needLabel "SG" (positionCount roster "SG") 2 ∈
              IDEAL_ROSTER_COMPOSITION.filterMap (fun pi =>
                if positionCount roster pi.1 < pi.2 - 1 then
                  some (needLabel pi.1 (positionCount roster pi.1) pi.2)
                else none) :=
            List.mem_filterMap.mpr ⟨("SG", 2),
              by simp [IDEAL_ROSTER_COMPOSITION], by simp [hlt]⟩
          rw [hmnil] at hin
          simp at hin
      next =>
        simp [IDEAL_ROSTER_COMPOSITION, List.mem_filterMap,
          Option.ite_none_right_eq_some, m1, m2, m3, m4]
    refine ⟨hiff1, hiff2, ?_, hneed4, hne⟩
    intro hc
    refine ⟨fun hmem => ?_, fun hmem => ?_⟩
    · have := hiff1.mp hmem
      omega
    · have := hiff2.mp hmem
      omega
  · -- pos = "SF"
    have s1 : ∀ d c : Nat, strengthLabel "PG" d ≠ strengthLabel "SF" c :=
      fun d c => label_ne_of_ne_take2 _ _ (by show ¬ (['P','G'] = ['S','F']); decide)
    have s2 : ∀ d c : Nat, strengthLabel "SG" d ≠ strengthLabel "SF" c :=
      fun d c => label_ne_of_ne_take2 _ _ (by show ¬ (['S','G'] = ['S','F']); decide)
    have s3 : ∀ d c : Nat, strengthLabel "PF" d ≠ strengthLabel "SF" c :=
      fun d c => label_ne_of_ne_take2 _ _ (by show ¬ (['P','F'] = ['S','F']); decide)
    have s4 : ∀ d c : Nat, strengthLabel "C" d ≠ strengthLabel "SF" c :=
      fun d c => label_ne_of_ne_take2 _ _ (by show ¬ (['C',' '] = ['S','F']); decide)
    have m1 : ∀ d i c j : Nat, needLabel "PG" d i ≠ needLabel "SF" c j :=
      fun d i c j => label_ne_of_ne_take2 _ _ (by show ¬ (['P','G'] = ['S','F']); decide)
    have m2 : ∀ d i c j : Nat, needLabel "SG" d i ≠ needLabel "SF" c j :=
      fun d i c j => label_ne_of_ne_take2 _ _ (by show ¬ (['S','G'] = ['S','F']); decide)
    have m3 : ∀ d i c j : Nat, needLabel "PF" d i ≠ needLabel "SF" c j :=
      fun d i c j => label_ne_of_ne_take2 _ _ (by show ¬ (['P','F'] = ['S','F']); decide)
    have m4 : ∀ d i c j : Nat, needLabel "C" d i ≠ needLabel "SF" c j :=
      fun d i c j => label_ne_of_ne_take2 _ _ (by show ¬ (['C',' '] = ['S','F']); decide)
    have msent : ∀ c j : Nat, needLabel "SF" c j ≠ "Roster is well-balanced" :=
      fun c j => label_ne_of_ne_take2 _ _ (by show ¬ (['S','F'] = ['R','o']); decide)
    have hiff1 : strengthLabel "SF" (positionCount roster "SF") ∈
        (analyzeRoster roster).strengths ↔ 2 ≤ positionCount roster "SF" := by
      simp only [analyzeRoster]
      simp [IDEAL_ROSTER_COMPOSITION, List.mem_filterMap,
        Option.ite_none_right_eq_some, s1, s2, s3, s4]
    have hiff2 : needLabel "SF" (positionCount roster "SF") 2 ∈
        (analyzeRoster roster).needs ↔ positionCount roster "SF" < 2 - 1 := by
      simp only [analyzeRoster]
      split
      next hmnil =>
        constructor
        · intro hmem
          simp [msent] at hmem
        · intro hlt
          exfalso
          have hin : needLabel "SF" (positionCount roster "SF") 2 ∈
              IDEAL_ROSTER_COMPOSITION.filterMap (fun pi =>
                if positionCount roster pi.1 < pi.2 - 1 then
                  some (needLabel pi.1 (positionCount roster pi.1) pi.2)
                else none) :=
            List.mem_filterMap.mpr ⟨("SF", 2),
              by simp [IDEAL_ROSTER_COMPOSITION], by simp [hlt]⟩
          rw [hmnil] at hin
          simp at hin
      next =>
        simp [IDEAL_ROSTER_COMPOSITION, List.mem_filterMap,
          Option.ite_none_right_eq_some, m1, m2, m3, m4]
    refine ⟨hiff1, hiff2, ?_, hneed4, hne⟩
    intro hc
    refine ⟨fun hmem => ?_, fun hmem => ?_⟩
    · have := hiff1.mp hmem
      omega
    · have := hiff2.mp hmem
      omega
  · -- pos = "PF"
    have s1 : ∀ d c : Nat, strengthLabel "PG" d ≠ strengthLabel "PF" c :=
      fun d c => label_ne_of_ne_take2 _ _ (by show ¬ (['P','G'] = ['P','F']); decide)
    have s2 : ∀ d c : Nat, strengthLabel "SG" d ≠ strengthLabel "PF" c :=
      fun d c => label_ne_of_ne_take2 _ _ (by show ¬ (['S','G'] = ['P','F']); decide)
    have s3 : ∀ d c : Nat, strengthLabel "SF" d ≠ strengthLabel "PF" c :=
      fun d c => label_ne_of_ne_take2 _ _ (by show ¬ (['S','F'] = ['P','F']); decide)
    have s4 : ∀ d c : Nat, strengthLabel "C" d ≠ strengthLabel "PF" c :=
      fun d c => label_ne_of_ne_take2 _ _ (by show ¬ (['C',' '] = ['P','F']); decide)
    have m1 : ∀ d i c j : Nat, needLabel "PG" d i ≠ needLabel "PF" c j :=
      fun d i c j => label_ne_of_ne_take2 _ _ (by show ¬ (['P','G'] = ['P','F']); decide)
    have m2 : ∀ d i c j : Nat, needLabel "SG" d i ≠ needLabel "PF" c j :=
      fun d i c j => label_ne_of_ne_take2 _ _ (by show ¬ (['S','G'] = ['P','F']); decide)
    have m3 : ∀ d i c j : Nat, needLabel "SF" d i ≠ needLabel "PF" c j :=
      fun d i c j => label_ne_of_ne_take2 _ _ (by show ¬ (['S','F'] = ['P','F']); decide)
    have m4 : ∀ d i c j : Nat, needLabel "C" d i ≠ needLabel "PF" c j :=
      fun d i c j => label_ne_of_ne_take2 _ _ (by show ¬ (['C',' '] = ['P','F']); decide)
    have msent : ∀ c j : Nat, needLabel "PF" c j ≠ "Roster is well-balanced" :=
      fun c j => label_ne_of_ne_take2 _ _ (by show ¬ (['P','F'] = ['R','o']); decide)
    have hiff1 : strengthLabel "PF" (positionCount roster "PF") ∈
        (analyzeRoster roster).strengths ↔ 2 ≤ positionCount roster "PF" := by
      simp only [analyzeRoster]
      simp [IDEAL_ROSTER_COMPOSITION, List.mem_filterMap,
        Option.ite_none_right_eq_some, s1, s2, s3, s4]
    have hiff2 : needLabel "PF" (positionCount roster "PF") 2 ∈
        (analyzeRoster roster).needs ↔ positionCount roster "PF" < 2 - 1 := by
      simp only [analyzeRoster]
      split
      next hmnil =>
        constructor
        · intro hmem
          simp [msent] at hmem
        · intro hlt
          exfalso
          have hin : needLabel "PF" (positionCount roster "PF") 2 ∈
              IDEAL_ROSTER_COMPOSITION.filterMap (fun pi =>
                if positionCount roster pi.1 < pi.2 - 1 then
                  some (needLabel pi.1 (positionCount roster pi.1) pi.2)
                else none) :=
            List.mem_filterMap.mpr ⟨("PF", 2),
              by simp [IDEAL_ROSTER_COMPOSITION], by simp [hlt]⟩
          rw [hmnil] at hin
          simp at hin
      next =>
        simp [IDEAL_ROSTER_COMPOSITION, List.mem_filterMap,
          Option.ite_none_right_eq_some, m1, m2, m3, m4]
    refine ⟨hiff1, hiff2, ?_, hneed4, hne⟩
    intro hc
    refine ⟨fun hmem => ?_, fun hmem => ?_⟩
    · have := hiff1.mp hmem
      omega
    · have := hiff2.mp hmem
      omega
  · -- pos = "C"
    have s1 : ∀ d c : Nat, strengthLabel "PG" d ≠ strengthLabel "C" c :=
      fun d c => label_ne_of_ne_take2 _ _ (by show ¬ (['P','G'] = ['C',' ']); decide)
    have s2 : ∀ d c : Nat, strengthLabel "SG" d ≠ strengthLabel "C" c :=
      fun d c => label_ne_of_ne_take2 _ _ (by show ¬ (['S','G'] = ['C',' ']); decide)
    have s3 : ∀ d c : Nat, strengthLabel "SF" d ≠ strengthLabel "C" c :=
      fun d c => label_ne_of_ne_take2 _ _ (by show ¬ (['S','F'] = ['C',' ']); decide)
    have s4 : ∀ d c : Nat, strengthLabel "PF" d ≠ strengthLabel "C" c :=
      fun d c => label_ne_of_ne_take2 _ _ (by show ¬ (['P','F'] = ['C',' ']); decide)
    have m1 : ∀ d i c j : Nat, needLabel "PG" d i ≠ needLabel "C" c j :=
      fun d i c j => label_ne_of_ne_take2 _ _ (by show ¬ (['P','G'] = ['C',' ']); decide)
    have m2 : ∀ d i c j : Nat, needLabel "SG" d i ≠ needLabel "C" c j :=
      fun d i c j => label_ne_of_ne_take2 _ _ (by show ¬ (['S','G'] = ['C',' ']); decide)
    have m3 : ∀ d i c j : Nat, needLabel "SF" d i ≠ needLabel "C" c j :=
      fun d i c j => label_ne_of_ne_take2 _ _ (by show ¬ (['S','F'] = ['C',' ']); decide)
    have m4 : ∀ d i c j : Nat, needLabel "PF" d i ≠ needLabel "C" c j :=
      fun d i c j => label_ne_of_ne_take2 _ _ (by show ¬ (['P','F'] = ['C',' ']); decide)
    have msent : ∀ c j : Nat, needLabel "C" c j ≠ "Roster is well-balanced" :=
      fun c j => label_ne_of_ne_take2 _ _ (by show ¬ (['C',' '] = ['R','o']); decide)
    have hiff1 : strengthLabel "C" (positionCount roster "C") ∈
        (analyzeRoster roster).strengths ↔ 2 ≤ positionCount roster "C" := by
      simp only [analyzeRoster]
      simp [IDEAL_ROSTER_COMPOSITION, List.mem_filterMap,
        Option.ite_none_right_eq_some, s1, s2, s3, s4]
    have hiff2 : needLabel "C" (positionCount roster "C") 2 ∈
        (analyzeRoster roster).needs ↔ positionCount roster "C" < 2 - 1 := by
      simp only [analyzeRoster]
      split
      next hmnil =>
        constructor
        · intro hmem
          simp [msent] at hmem
        · intro hlt
          exfalso
          have hin : needLabel "C" (positionCount roster "C") 2 ∈
              IDEAL_ROSTER_COMPOSITION.filterMap (fun pi =>
                if positionCount roster pi.1 < pi.2 - 1 then
                  some (needLabel pi.1 (positionCount roster pi.1) pi.2)
                else none) :=
            List.mem_filterMap.mpr ⟨("C", 2),
              by simp [IDEAL_ROSTER_COMPOSITION], by simp [hlt]⟩
          rw [hmnil] at hin
          simp at hin
      next =>
        simp [IDEAL_ROSTER_COMPOSITION, List.mem_filterMap,
          Option.ite_none_right_eq_some, m1, m2, m3, m4]
    refine ⟨hiff1, hiff2, ?_, hneed4, hne⟩
    intro hc
    refine ⟨fun hmem => ?_, fun hmem => ?_⟩
    · have := hiff1.mp hmem
      omega
    · have := hiff2.mp hmem
      omega

/-- Claim C8 (witness): the analysis of a roster with two point guards
and one shooting guard: PG is a strength (2 of 2), SG is one short and
not flagged, and the needs list is non-empty. -/
theorem claim_C8_witness :
    (strengthLabel "PG" (positionCount
        [⟨1, "P One", none, some "PG", some 1⟩,
         ⟨6, "P Six", none, some "PG", some 6⟩,
         ⟨2, "P Two", none, some "SG", some 2⟩] "PG") ∈
      (analyzeRoster
        [⟨1, "P One", none, some "PG", some 1⟩,
         ⟨6, "P Six", none, some "PG", some 6⟩,
         ⟨2, "P Two", none, some "SG", some 2⟩]).strengths ↔
      2 ≤ positionCount
        [⟨1, "P One", none, some "PG", some 1⟩,
         ⟨6, "P Six", none, some "PG", some 6⟩,
         ⟨2, "P Two", none, some "SG", some 2⟩] "PG") ∧
    (needLabel "PG" (positionCount
        [⟨1, "P One", none, some "PG", some 1⟩,
         ⟨6, "P Six", none, some "PG", some 6⟩,
         ⟨2, "P Two", none, some "SG", some 2⟩] "PG") 2 ∈
      (analyzeRoster
        [⟨1, "P One", none, some "PG", some 1⟩,
         ⟨6, "P Six", none, some "PG", some 6⟩,
         ⟨2, "P Two", none, some "SG", some 2⟩]).needs ↔
      positionCount
        [⟨1, "P One", none, some "PG", some 1⟩,
         ⟨6, "P Six", none, some "PG", some 6⟩,
         ⟨2, "P Two", none, some "SG", some 2⟩] "PG" < 2 - 1) ∧
    (positionCount
        [⟨1, "P One", none, some "PG", some 1⟩,
         ⟨6, "P Six", none, some "PG", some 6⟩,
         ⟨2, "P Two", none, some "SG", some 2⟩] "PG" = 2 - 1 →
      strengthLabel "PG" (positionCount
        [⟨1, "P One", none, some "PG", some 1⟩,
         ⟨6, "P Six", none, some "PG", some 6⟩,
         ⟨2, "P Two", none, some "SG", some 2⟩] "PG") ∉
        (analyzeRoster
          [⟨1, "P One", none, some "PG", some 1⟩,
           ⟨6, "P Six", none, some "PG", some 6⟩,
           ⟨2, "P Two", none, some "SG", some 2⟩]).strengths ∧
      needLabel "PG" (positionCount
        [⟨1, "P One", none, some "PG", some 1⟩,
         ⟨6, "P Six", none, some "PG", some 6⟩,
         ⟨2, "P Two", none, some "SG", some 2⟩] "PG") 2 ∉
        (analyzeRoster
          [⟨1, "P One", none, some "PG", some 1⟩,
           ⟨6, "P Six", none, some "PG", some 6⟩,
           ⟨2, "P Two", none, some "SG", some 2⟩]).needs) ∧
    ((∀ pi ∈ IDEAL_ROSTER_COMPOSITION,
        ¬ (positionCount
          [⟨1, "P One", none, some "PG", some 1⟩,
           ⟨6, "P Six", none, some "PG", some 6⟩,
           ⟨2, "P Two", none, some "SG", some 2⟩] pi.1 < pi.2 - 1)) →
      (analyzeRoster
        [⟨1, "P One", none, some "PG", some 1⟩,
         ⟨6, "P Six", none, some "PG", some 6⟩,
         ⟨2, "P Two", none, some "SG", some 2⟩]).needs =
        ["Roster is well-balanced"]) ∧
    (analyzeRoster
      [⟨1, "P One", none, some "PG", some 1⟩,
       ⟨6, "P Six", none, some "PG", some 6⟩,
       ⟨2, "P Two", none, some "SG", some 2⟩]).needs ≠ [] :=
  claim_C8_roster_analysis
    [⟨1, "P One", none, some "PG", some 1⟩,
     ⟨6, "P Six", none, some "PG", some 6⟩,
     ⟨2, "P Two", none, some "SG", some 2⟩] "PG" 2 (by simp [IDEAL_ROSTER_COMPOSITION])
